import Mathlib

/-!
Shallow embedding of the core game logic of `retro_ai_snake.py`
(classes `AIGameMaster` and `RetroSnakeGame`).

Python `int` is modelled by `Int`/`Nat`, `float` by `ℚ` (only order and
field operations on scores/times are used by the code), dicts with a fixed
key set by structures, lists by `List`.  Randomness (`random.randint`,
`random.random`, `random.choice`) is injected explicitly: the rejection
sampling loops of `spawn_food`/`spawn_power_up` consume a list of candidate
draws and return `none` when the list is exhausted (modelling divergence),
and the uniform draw of `should_spawn_power_up` is passed in as a rational.
-/

namespace RetroSnake

/-- The four movement directions (the `up`, `down`, `left`, `right` strings). -/
inductive Direction
  | up
  | down
  | left
  | right
  deriving DecidableEq

/-- The four skill levels (the `beginner`, `intermediate`, `advanced`, `expert` strings). -/
inductive Skill
  | beginner
  | intermediate
  | advanced
  | expert
  deriving DecidableEq

/-- Death causes (the `wall` and `self` keys of `death_causes`). -/
inductive DeathCause
  | wall
  | selfHit
  deriving DecidableEq

/-- Power-up kinds (the `speed_boost`, `score_multiplier`, `invincible` strings). -/
inductive PowerUpType
  | speed_boost
  | score_multiplier
  | invincible
  deriving DecidableEq

/-- A grid cell: the `(x, y)` integer tuples of the Python code. -/
abbrev Cell := Int × Int

/-- The `death_causes` dict (fixed keys `wall` and `self`). -/
structure DeathCauses where
  wall : Nat
  selfHit : Nat
  deriving DecidableEq

/-- The `preferred_directions` dict (fixed keys, all four always present). -/
structure DirCounts where
  up : Nat
  down : Nat
  left : Nat
  right : Nat
  deriving DecidableEq

/-- The `player_data` dict of `AIGameMaster`. -/
structure PlayerData where
  games_played : Nat
  avg_score : ℚ
  avg_game_time : ℚ
  movement_patterns : List (List Direction)
  death_causes : DeathCauses
  preferred_directions : DirCounts
  reaction_times : List ℚ
  skill_level : Skill
  deriving DecidableEq

/-- `AIGameMaster.analyze_skill_level`: first-match threshold table. -/
def analyze_skill_level (pd : PlayerData) : Skill :=
  if pd.games_played < 3 then .beginner
  else if pd.avg_score > 200 ∧ pd.avg_game_time > 120 then .expert
  else if pd.avg_score > 100 ∧ pd.avg_game_time > 60 then .advanced
  else if pd.avg_score > 50 ∧ pd.avg_game_time > 30 then .intermediate
  else .beginner

/-- The `base_speeds` dict of `adapt_difficulty`. -/
def base_speeds : Skill → Int
  | .beginner => 8
  | .intermediate => 12
  | .advanced => 16
  | .expert => 20

/-- Result of `adapt_difficulty`: the mutated `player_data` together with
the mutated `AIGameMaster` attributes `base_speed`, `current_speed`,
`power_up_frequency`. -/
structure AdaptResult where
  player_data : PlayerData
  base_speed : Int
  current_speed : Int
  power_up_frequency : ℚ
  deriving DecidableEq

/-- `AIGameMaster.adapt_difficulty(current_score, game_time)`.
The Python method mutates the `skill_level` entry of `self.player_data`
and the attributes `self.base_speed`, `self.current_speed`, `self.power_up_frequency`;
here all four results are returned.  `game_time` is accepted but unused,
exactly as in the source. -/
def adapt_difficulty (pd : PlayerData) (current_score : ℚ) (game_time : ℚ) :
    AdaptResult :=
  let skill := analyze_skill_level pd
  let pd' := { pd with skill_level := skill }
  let base := base_speeds skill
  let speed :=
    if current_score > pd'.avg_score * 1.2 then min (base + 3) 25
    else if current_score < pd'.avg_score * 0.8 then max (base - 2) 6
    else base
  let freq : ℚ :=
    if skill = .beginner then 0.4
    else if skill = .expert then 0.2
    else 0.3
  { player_data := pd', base_speed := base, current_speed := speed,
    power_up_frequency := freq }

/-- Concatenation of the pattern lists, in the order
`for pattern in recent_patterns: for direction in pattern:` visits them. -/
def join_all : List (List Direction) → List Direction
  | [] => []
  | l :: ls => l ++ join_all ls

/-- The keys of the Python dict `direction_weights` in insertion order:
the distinct directions of `l` in order of first occurrence. -/
def first_occs : List Direction → List Direction
  | [] => []
  | d :: ds => d :: (first_occs ds).filter (fun x => decide (x ≠ d))

/-- `max(direction_weights, key=direction_weights.get)`: scan the keys in
insertion order keeping the current champion, replacing it only on a
strictly larger count (so ties keep the earlier key). -/
def pick_max_key (l : List Direction) (best : Direction) :
    List Direction → Direction
  | [] => best
  | k :: ks => pick_max_key l (if l.count k > l.count best then k else best) ks

/-- The pooled sequence of directions visited by the nested loop of
`predict_next_move`: the 10 most recently appended patterns
(`movement_patterns[-10:]`), pattern by pattern, in order. -/
def recent_flat (patterns : List (List Direction)) : List Direction :=
  join_all (patterns.drop (patterns.length - 10))

/-- `AIGameMaster.predict_next_move`.  The Python dict `direction_weights`
maps each direction occurring in the pooled last-10 patterns to its
occurrence count, with keys in insertion (= first-occurrence) order; `max`
with `key=direction_weights.get` returns the first key of maximal count.
The `snake_head`/`last_direction` parameters of the source are unused there
and omitted. -/
def predict_next_move (patterns : List (List Direction)) : Option Direction :=
  if patterns = [] then none
  else
    let flat := recent_flat patterns
    match first_occs flat with
    | [] => none
    | k :: ks => some (pick_max_key flat k ks)

/-- `AIGameMaster.should_spawn_power_up(current_score, snake_length)` with
the uniform `random.random()` draw injected as `draw`.  `snake_length` is
accepted but unused, exactly as in the source. -/
def should_spawn_power_up (pd : PlayerData) (power_up_frequency : ℚ)
    (current_score : ℚ) (snake_length : Nat) (draw : ℚ) : Bool :=
  if current_score < pd.avg_score * 0.7 then
    decide (draw < power_up_frequency * 1.5)
  else
    decide (draw < power_up_frequency)

/-- Increment of one `death_causes` counter. -/
def bump_death (dc : DeathCauses) : DeathCause → DeathCauses
  | .wall => { dc with wall := dc.wall + 1 }
  | .selfHit => { dc with selfHit := dc.selfHit + 1 }

/-- `preferred_directions` update: `+1` for every direction in the move log. -/
def bump_dirs (c : DirCounts) (movements : List Direction) : DirCounts :=
  { up := c.up + movements.count .up,
    down := c.down + movements.count .down,
    left := c.left + movements.count .left,
    right := c.right + movements.count .right }

/-- `AIGameMaster.update_player_stats(score, game_time, death_cause,
movements)`: running means, death-cause counter, movement-pattern history
(last 20 moves appended, FIFO eviction past 50), direction counters. -/
def update_player_stats (pd : PlayerData) (score : Int) (game_time : ℚ)
    (death_cause : DeathCause) (movements : List Direction) : PlayerData :=
  let games := pd.games_played + 1
  let pattern := movements.drop (movements.length - 20)
  let mp := pd.movement_patterns ++ [pattern]
  let mp := if mp.length > 50 then mp.drop 1 else mp
  { pd with
    games_played := games,
    avg_score := (pd.avg_score * ((games : ℚ) - 1) + (score : ℚ)) / (games : ℚ),
    avg_game_time :=
      (pd.avg_game_time * ((games : ℚ) - 1) + game_time) / (games : ℚ),
    death_causes := bump_death pd.death_causes death_cause,
    movement_patterns := mp,
    preferred_directions := bump_dirs pd.preferred_directions movements }

/-! ## RetroSnakeGame -/

/-- `GRID_WIDTH = WINDOW_WIDTH // GRID_SIZE = 800 // 20`. -/
def GRID_WIDTH : Int := 40

/-- `GRID_HEIGHT = (WINDOW_HEIGHT - 100) // GRID_SIZE = 500 // 20`. -/
def GRID_HEIGHT : Int := 25

/-- One step of the head in a direction (`up`: `y - 1`, `down`: `y + 1`,
`left`: `x - 1`, `right`: `x + 1`). -/
def moveCell (c : Cell) (d : Direction) : Cell :=
  match d with
  | .up => (c.1, c.2 - 1)
  | .down => (c.1, c.2 + 1)
  | .left => (c.1 - 1, c.2)
  | .right => (c.1 + 1, c.2)

/-- The wall-collision test of `update_game`. -/
def wallHit (c : Cell) : Bool :=
  decide (c.1 < 0) || decide (c.1 ≥ GRID_WIDTH) ||
  decide (c.2 < 0) || decide (c.2 ≥ GRID_HEIGHT)

/-- The collision classification of `update_game` (lines 310-320): wall
check first, then membership of the new head in the snake as it exists
before any segment is moved this tick. -/
def check_collisions (new_head : Cell) (snake : List Cell) :
    Option DeathCause :=
  if wallHit new_head then some .wall
  else if new_head ∈ snake then some .selfHit
  else none

/-- A power-up dict with fields `pos`, `type`, `timer`. -/
structure PowerUp where
  pos : Cell
  kind : PowerUpType
  timer : Int
  deriving DecidableEq

/-- `RetroSnakeGame.spawn_food`: rejection sampling over random cells.
The random draws are injected as `draws`; the Python `while True` loop
never returns when every draw lies on the snake, modelled by `none` once
the injected draws are exhausted. -/
def spawn_food (draws : List Cell) (snake : List Cell) : Option Cell :=
  match draws with
  | [] => none
  | d :: ds => if d ∈ snake then spawn_food ds snake else some d

/-- `RetroSnakeGame.spawn_power_up`: rejection sampling over random cells,
accepting a cell off the snake and distinct from the food; the kind is a
uniform choice (injected) and the timer starts at `300`. -/
def spawn_power_up (draws : List Cell) (snake : List Cell) (food : Cell)
    (kind : PowerUpType) : Option PowerUp :=
  match draws with
  | [] => none
  | d :: ds =>
    if d ∈ snake ∨ d = food then spawn_power_up ds snake food kind
    else some { pos := d, kind := kind, timer := 300 }

/-- `RetroSnakeGame.handle_power_up`: the one-shot score bonus per kind. -/
def handle_power_up : PowerUpType → Int
  | .score_multiplier => 50
  | .speed_boost => 25
  | .invincible => 30

/-- The mutable attributes of `AIGameMaster` used by the tick. -/
structure AIGameMaster where
  player_data : PlayerData
  base_speed : Int
  current_speed : Int
  power_up_frequency : ℚ
  deriving DecidableEq

/-- The per-session mutable state of `RetroSnakeGame` touched by
`update_game`. -/
structure GameState where
  ai : AIGameMaster
  snake : List Cell
  direction : Direction
  last_direction : Direction
  food : Cell
  power_ups : List PowerUp
  score : Int
  game_over : Bool
  paused : Bool
  movement_history : List Direction
  ai_prediction : Option Direction
  show_ai_hints : Bool
  deriving DecidableEq

/-- Injected randomness for one tick: the candidate cells drawn by
`spawn_food` and `spawn_power_up`, the uniform draw consumed by
`should_spawn_power_up`, and the uniform kind choice. -/
structure TickRandom where
  foodDraws : List Cell
  puDraws : List Cell
  spawnDraw : ℚ
  puKind : PowerUpType
  deriving DecidableEq

/-- Result of one call to `update_game`: the new state, and the death
cause detected this tick (if any), which the Python code passes to
`update_player_stats`. -/
structure TickOut where
  state : GameState
  death : Option DeathCause
  deriving DecidableEq

/-- The power-up pickup loop and the timer loop at the end of
`update_game` (lines 344-354): every power-up whose position equals the
new head is handled (score bonus) and removed; every surviving timer is
decremented and those reaching `≤ 0` are removed. -/
def finish_tick (st : GameState) (new_head : Cell) : GameState :=
  let matched := st.power_ups.filter (fun p => decide (p.pos = new_head))
  let bonus := (matched.map (fun p => handle_power_up p.kind)).sum
  let rest := st.power_ups.filter (fun p => decide (p.pos ≠ new_head))
  let ticked := rest.map (fun p => { p with timer := p.timer - 1 })
  let alive := ticked.filter (fun p => decide (0 < p.timer))
  { st with score := st.score + bonus, power_ups := alive }

/-- `RetroSnakeGame.update_game`, with the two `datetime` game-time reads
injected as `game_time` and the random sources injected as `rnd`.  Returns
`none` where the Python code would crash (empty snake) or loop forever
(a spawn loop whose injected draws are exhausted). -/
def update_game (st : GameState) (game_time : ℚ) (rnd : TickRandom) :
    Option TickOut :=
  if st.paused || st.game_over then some ⟨st, none⟩
  else
    match st.snake with
    | [] => none
    | head :: _tail =>
      let a := adapt_difficulty st.ai.player_data (st.score : ℚ) game_time
      let ai1 : AIGameMaster :=
        { player_data := a.player_data, base_speed := a.base_speed,
          current_speed := a.current_speed,
          power_up_frequency := a.power_up_frequency }
      let pred := predict_next_move ai1.player_data.movement_patterns
      let new_head := moveCell head st.direction
      match check_collisions new_head st.snake with
      | some c =>
        let ai2 :=
          { ai1 with
            player_data := update_player_stats ai1.player_data st.score
              game_time c st.movement_history }
        some ⟨{ st with ai := ai2, ai_prediction := pred, game_over := true },
              some c⟩
      | none =>
        let grown := new_head :: st.snake
        let st1 :=
          { st with
            ai := ai1, ai_prediction := pred, snake := grown,
            last_direction := st.direction }
        if new_head = st.food then
          match spawn_food rnd.foodDraws grown with
          | none => none
          | some f =>
            let st2 := { st1 with score := st1.score + 10, food := f }
            if should_spawn_power_up ai1.player_data ai1.power_up_frequency
                (st2.score : ℚ) grown.length rnd.spawnDraw then
              match spawn_power_up rnd.puDraws grown f rnd.puKind with
              | none => none
              | some pu =>
                some ⟨finish_tick
                  { st2 with power_ups := st2.power_ups ++ [pu] } new_head,
                  none⟩
            else
              some ⟨finish_tick st2 new_head, none⟩
        else
          some ⟨finish_tick { st1 with snake := grown.dropLast } new_head,
                none⟩

/-! ## Helper lemmas -/

/-- Numeric rank of the four skill tiers, `beginner < intermediate <
advanced < expert`. -/
def skill_rank : Skill → Nat
  | .beginner => 0
  | .intermediate => 1
  | .advanced => 2
  | .expert => 3

/-- The champion scan of `pick_max_key` returns a key of maximal count,
and the first such key in scan order. -/
theorem pick_max_key_spec (l : List Direction) :
    ∀ (ks : List Direction) (b : Direction),
      ∃ pre post, b :: ks = pre ++ pick_max_key l b ks :: post ∧
        (∀ k ∈ pre, l.count k < l.count (pick_max_key l b ks)) ∧
        (∀ k ∈ b :: ks, l.count k ≤ l.count (pick_max_key l b ks)) := by
  intro ks
  induction ks with
  | nil =>
    intro b
    exact ⟨[], [], rfl, by simp, by simp [pick_max_key]⟩
  | cons k ks ih =>
    intro b
    have hunfold : pick_max_key l b (k :: ks) =
        pick_max_key l (if l.count k > l.count b then k else b) ks := rfl
    rcases ih (if l.count k > l.count b then k else b) with
      ⟨pre, post, heq, hpre, hmax⟩
    rw [hunfold]
    by_cases hkb : l.count k > l.count b
    · simp only [hkb, if_true] at heq hpre hmax ⊢
      have hck : l.count k ≤ l.count (pick_max_key l k ks) :=
        hmax k (List.mem_cons_self _ _)
      refine ⟨b :: pre, post, ?_, ?_, ?_⟩
      · rw [List.cons_append, ← heq]
      · intro x hx
        rcases List.mem_cons.mp hx with rfl | hx
        · exact lt_of_lt_of_le hkb hck
        · exact hpre x hx
      · intro x hx
        rcases List.mem_cons.mp hx with rfl | hx
        · exact le_of_lt (lt_of_lt_of_le hkb hck)
        · exact hmax x hx
    · simp only [hkb, if_false] at heq hpre hmax ⊢
      push_neg at hkb
      cases pre with
      | nil =>
        simp only [List.nil_append] at heq
        have hb : b = pick_max_key l b ks := (List.cons_eq_cons.mp heq).1
        refine ⟨[], k :: ks, ?_, by simp, ?_⟩
        · rw [List.nil_append, ← hb]
        · intro x hx
          rcases List.mem_cons.mp hx with rfl | hx
          · exact le_of_eq (congrArg l.count hb)
          · rcases List.mem_cons.mp hx with rfl | hx
            · exact le_trans hkb (hmax b (List.mem_cons_self _ _))
            · exact hmax x (List.mem_cons_of_mem _ hx)
      | cons p0 pre' =>
        simp only [List.cons_append] at heq
        have hp0 : b = p0 := (List.cons_eq_cons.mp heq).1
        have hks : ks = pre' ++ pick_max_key l b ks :: post :=
          (List.cons_eq_cons.mp heq).2
        have hbin : l.count b < l.count (pick_max_key l b ks) := by
          have h0 := hpre p0 (List.mem_cons_self _ _)
          rwa [← hp0] at h0
        refine ⟨b :: k :: pre', post, ?_, ?_, ?_⟩
        · rw [List.cons_append, List.cons_append, ← hks]
        · intro x hx
          rcases List.mem_cons.mp hx with rfl | hx
          · exact hbin
          · rcases List.mem_cons.mp hx with rfl | hx
            · exact lt_of_le_of_lt hkb hbin
            · exact hpre x (List.mem_cons_of_mem _ hx)
        · intro x hx
          rcases List.mem_cons.mp hx with rfl | hx
          · exact le_of_lt hbin
          · rcases List.mem_cons.mp hx with rfl | hx
            · exact le_of_lt (lt_of_le_of_lt hkb hbin)
            · exact hmax x (List.mem_cons_of_mem _ hx)

/-- The insertion-order key list holds exactly the directions occurring in
the scanned sequence. -/
theorem mem_first_occs {x : Direction} : ∀ {l : List Direction},
    x ∈ first_occs l ↔ x ∈ l := by
  intro l
  induction l with
  | nil => simp [first_occs]
  | cons d ds ih =>
    by_cases hxd : x = d
    · subst hxd
      simp [first_occs]
    · simp [first_occs, List.mem_filter, hxd, ih]

/-- The key list is empty exactly when the scanned sequence is empty. -/
theorem first_occs_eq_nil {l : List Direction} :
    first_occs l = [] ↔ l = [] := by
  cases l <;> simp [first_occs]

/-- Every power-up surviving the pickup and timer loops already sat at its
position before them. -/
theorem finish_tick_pos_subset (st : GameState) (nh : Cell) :
    ∀ pu ∈ (finish_tick st nh).power_ups,
      pu.pos ∈ st.power_ups.map PowerUp.pos := by
  intro pu hpu
  unfold finish_tick at hpu
  dsimp only at hpu
  rcases List.mem_filter.mp hpu with ⟨hmem, _⟩
  rcases List.mem_map.mp hmem with ⟨q, hq, rfl⟩
  rcases List.mem_filter.mp hq with ⟨hq0, _⟩
  exact List.mem_map.mpr ⟨q, hq0, rfl⟩

/-- The pickup and timer loops never lengthen the power-up list. -/
theorem finish_tick_len (st : GameState) (nh : Cell) :
    (finish_tick st nh).power_ups.length ≤ st.power_ups.length := by
  unfold finish_tick
  dsimp only
  refine le_trans (List.length_filter_le _ _) ?_
  rw [List.length_map]
  exact List.length_filter_le _ _

/-- A successful food spawn lands off the snake. -/
theorem spawn_food_not_on_snake :
    ∀ (draws snake : List Cell) (c : Cell),
      spawn_food draws snake = some c → c ∉ snake := by
  intro draws
  induction draws with
  | nil => intro snake c h; simp [spawn_food] at h
  | cons d ds ih =>
    intro snake c h
    unfold spawn_food at h
    by_cases hd : d ∈ snake
    · rw [if_pos hd] at h
      exact ih snake c h
    · rw [if_neg hd] at h
      cases h
      exact hd

/-- A successful power-up spawn lands off the snake and off the food. -/
theorem spawn_power_up_clear :
    ∀ (draws snake : List Cell) (food : Cell) (kind : PowerUpType)
      (pu : PowerUp), spawn_power_up draws snake food kind = some pu →
      pu.pos ∉ snake ∧ pu.pos ≠ food := by
  intro draws
  induction draws with
  | nil => intro snake food kind pu h; simp [spawn_power_up] at h
  | cons d ds ih =>
    intro snake food kind pu h
    unfold spawn_power_up at h
    by_cases hd : d ∈ snake ∨ d = food
    · rw [if_pos hd] at h
      exact ih snake food kind pu h
    · rw [if_neg hd] at h
      cases h
      push_neg at hd
      exact hd

/-- The food spawn loop fails to return exactly when every injected draw
lies on the snake. -/
theorem spawn_food_none_iff :
    ∀ (draws snake : List Cell),
      spawn_food draws snake = none ↔ ∀ d ∈ draws, d ∈ snake := by
  intro draws
  induction draws with
  | nil => intro snake; simp [spawn_food]
  | cons d ds ih =>
    intro snake
    unfold spawn_food
    by_cases hd : d ∈ snake
    · rw [if_pos hd]
      simp [hd, ih]
    · rw [if_neg hd]
      simp [hd]

/-- The power-up spawn loop fails to return exactly when every injected
draw lies on the snake or on the food. -/
theorem spawn_power_up_none_iff :
    ∀ (draws snake : List Cell) (food : Cell) (kind : PowerUpType),
      spawn_power_up draws snake food kind = none ↔
        ∀ d ∈ draws, d ∈ snake ∨ d = food := by
  intro draws
  induction draws with
  | nil => intro snake food kind; simp [spawn_power_up]
  | cons d ds ih =>
    intro snake food kind
    unfold spawn_power_up
    by_cases hd : d ∈ snake ∨ d = food
    · rw [if_pos hd]
      simp [hd, ih]
    · rw [if_neg hd]
      simp [hd]

/-- A tick on a non-empty snake completes whenever the injected food draws
yield a food cell and the injected power-up draws can always yield a
power-up cell (relative to that food). -/
theorem update_game_completes (st : GameState) (gt : ℚ) (rnd : TickRandom)
    (head : Cell) (tl : List Cell) (f : Cell)
    (hsn : st.snake = head :: tl)
    (hsf : spawn_food rnd.foodDraws (moveCell head st.direction :: st.snake) =
      some f)
    (hsp : spawn_power_up rnd.puDraws
      (moveCell head st.direction :: st.snake) f rnd.puKind ≠ none) :
    update_game st gt rnd ≠ none := by
  obtain ⟨ai, snake, dir, ld, food, pus, score, go, paused, mh, aip, hints⟩ := st
  dsimp only at hsn hsf hsp ⊢
  subst hsn
  unfold update_game
  by_cases hpg : (paused || go) = true
  · rw [if_pos hpg]
    simp
  · rw [if_neg hpg]
    dsimp only
    rcases hcc : check_collisions (moveCell head dir) (head :: tl) with _ | c
    · dsimp only
      by_cases hf : moveCell head dir = food
      · rw [if_pos hf, hsf]
        dsimp only
        split
        · rcases hq : spawn_power_up rnd.puDraws
              (moveCell head dir :: head :: tl) f rnd.puKind with _ | pu
          · exact absurd hq hsp
          · simp
        · simp
      · rw [if_neg hf]
        simp
    · simp

/-! ## Claim theorems -/

/-- C1: on a tick of a running, unpaused session whose wall check passes,
if the new head lies anywhere in the pre-tick snake body — including the
tail cell about to be vacated on a non-growth move — the detected death
cause is Self and the session transitions to game over. -/
theorem update_game_self_collision_includes_tail (st : GameState) (gt : ℚ)
    (rnd : TickRandom) (head : Cell) (tl : List Cell)
    (hsn : st.snake = head :: tl)
    (hps : st.paused = false) (hgo : st.game_over = false)
    (hw : wallHit (moveCell head st.direction) = false)
    (hmem : moveCell head st.direction ∈ st.snake) :
    ∃ out, update_game st gt rnd = some out ∧
      out.death = some DeathCause.selfHit ∧
      out.state.game_over = true := by
  obtain ⟨ai, snake, dir, ld, food, pus, score, go, paused, mh, aip, hints⟩ := st
  dsimp only at hsn hps hgo hw hmem ⊢
  subst hsn hps hgo
  have hc : check_collisions (moveCell head dir) (head :: tl) =
      some DeathCause.selfHit := by
    unfold check_collisions
    rw [hw]
    simp [hmem]
  unfold update_game
  simp only [hc, Bool.or_self, Bool.false_eq_true, if_false]
  exact ⟨_, rfl, rfl, rfl⟩

/-- Concrete running session whose snake is about to run into its own tail
cell: head at (5, 5), tail at (4, 5), moving left. -/
def stC1 : GameState :=
  { ai := ⟨{ games_played := 0, avg_score := 0, avg_game_time := 0,
             movement_patterns := [], death_causes := ⟨0, 0⟩,
             preferred_directions := ⟨0, 0, 0, 0⟩, reaction_times := [],
             skill_level := .beginner }, 10, 10, 0.3⟩,
    snake := [((5 : Int), (5 : Int)), ((4 : Int), (5 : Int))],
    direction := .left, last_direction := .left,
    food := ((7 : Int), (7 : Int)), power_ups := [], score := 0,
    game_over := false, paused := false, movement_history := [.left],
    ai_prediction := none, show_ai_hints := true }

/-- Fixed injected randomness for the concrete tick witnesses. -/
def rndC1 : TickRandom :=
  ⟨[((1 : Int), (1 : Int))], [((2 : Int), (2 : Int))], 0.9, .invincible⟩

/-- Witness for C1: the tick from `stC1` dies with cause Self even though
the colliding cell is the tail that a non-growth move would vacate. -/
theorem update_game_self_collision_includes_tail_witness :
    moveCell ((5 : Int), (5 : Int)) stC1.direction ∈ stC1.snake ∧
    ∃ out, update_game stC1 0 rndC1 = some out ∧
      out.death = some DeathCause.selfHit ∧
      out.state.game_over = true := by
  refine ⟨by decide, ?_⟩
  exact update_game_self_collision_includes_tail stC1 0 rndC1
    ((5 : Int), (5 : Int)) [((4 : Int), (5 : Int))] rfl rfl rfl
    (by decide) (by decide)

/-- Profile on which `adapt_difficulty` visibly rewrites the stored skill
tier: five games played but zero averages, stored tier Expert. -/
def pdC2 : PlayerData :=
  { games_played := 5, avg_score := 0, avg_game_time := 0,
    movement_patterns := [], death_causes := ⟨0, 0⟩,
    preferred_directions := ⟨0, 0, 0, 0⟩, reaction_times := [],
    skill_level := .expert }

/-- Counterexample to C2 as stated: `adapt_difficulty` does mutate the
profile — it overwrites the `skill_level` field with the freshly computed
classification, so a profile whose stored tier disagrees with its averages
is changed by the adaptation call. -/
theorem adapt_difficulty_mutates_skill_level :
    (adapt_difficulty pdC2 0 0).player_data.skill_level = Skill.beginner ∧
    pdC2.skill_level = Skill.expert ∧
    (adapt_difficulty pdC2 0 0).player_data ≠ pdC2 := by decide

/-- C2 (amended): recomputing the two derived parameters is idempotent —
a second adaptation call on the result of a first, with the same score and
time snapshot, returns identical outputs — and the adaptation call leaves
every profile field unchanged except `skill_level`, which it sets to the
freshly computed classification. -/
theorem adapt_difficulty_idempotent_frame (pd : PlayerData) (s t : ℚ) :
    adapt_difficulty (adapt_difficulty pd s t).player_data s t =
      adapt_difficulty pd s t ∧
    (adapt_difficulty pd s t).player_data =
      { pd with skill_level := analyze_skill_level pd } :=
  ⟨rfl, rfl⟩

/-- Counterexample to C3 as stated: a non-empty movement history whose
entries are all empty patterns makes `predict_next_move` return `none`,
so `none` is not returned only on empty histories. -/
theorem predict_none_on_nonempty_history :
    predict_next_move [[]] = none ∧
    ([[]] : List (List Direction)) ≠ [] := by decide

/-- C3 (amended): `predict_next_move` returns `none` exactly when the
directions pooled from the 10 most recently appended history entries are
empty — in particular on the empty history, but also on a non-empty
history whose recent entries are all empty. -/
theorem predict_none_iff_recent_flat_empty (patterns : List (List Direction)) :
    predict_next_move patterns = none ↔ recent_flat patterns = [] := by
  unfold predict_next_move
  by_cases hp : patterns = []
  · subst hp
    simp [recent_flat, join_all]
  · rw [if_neg hp]
    rcases hfo : first_occs (recent_flat patterns) with _ | ⟨k, ks⟩
    · simp only [hfo]
      simp [first_occs_eq_nil.mp hfo]
    · have : recent_flat patterns ≠ [] := by
        intro h
        rw [h] at hfo
        simp [first_occs] at hfo
      simp [hfo, this]

/-- Counterexample to C4 as stated: on the history `[[down, up]]` the
directions `up` and `down` are tied for the maximal pooled count, yet the
code returns `down`, not the tie-broken-by-priority `up` — Python `max`
keeps the first dict key in insertion order, not the first direction in
the order Up, Down, Left, Right. -/
theorem predict_tie_break_not_priority :
    predict_next_move [[Direction.down, Direction.up]] =
      some Direction.down ∧
    (recent_flat [[Direction.down, Direction.up]]).count Direction.up =
      (recent_flat [[Direction.down, Direction.up]]).count Direction.down ∧
    (recent_flat [[Direction.down, Direction.up]]).count Direction.left <
      (recent_flat [[Direction.down, Direction.up]]).count Direction.up ∧
    (recent_flat [[Direction.down, Direction.up]]).count Direction.right <
      (recent_flat [[Direction.down, Direction.up]]).count Direction.up ∧
    Direction.down ≠ Direction.up := by decide

/-- C4 (amended): on a history whose pooled recent directions are
non-empty, the prediction is some direction of maximal pooled count, and
among tied maxima it is the one whose first occurrence comes earliest in
the pooled scan (the insertion order of the Python counting dict) — still
a deterministic function of the history alone, but the tie-break order is
first occurrence, not the fixed priority Up, Down, Left, Right. -/
theorem predict_returns_first_occurring_max
    (patterns : List (List Direction))
    (h : recent_flat patterns ≠ []) :
    ∃ d, predict_next_move patterns = some d ∧ d ∈ recent_flat patterns ∧
      (∀ e : Direction,
        (recent_flat patterns).count e ≤ (recent_flat patterns).count d) ∧
      ∃ pre post, first_occs (recent_flat patterns) = pre ++ d :: post ∧
        ∀ k ∈ pre,
          (recent_flat patterns).count k < (recent_flat patterns).count d := by
  have hp : patterns ≠ [] := by
    intro hp
    apply h
    rw [hp]
    rfl
  rcases hfo : first_occs (recent_flat patterns) with _ | ⟨k, ks⟩
  · exact absurd (first_occs_eq_nil.mp hfo) h
  · have hps : predict_next_move patterns =
        some (pick_max_key (recent_flat patterns) k ks) := by
      unfold predict_next_move
      rw [if_neg hp]
      simp only [hfo]
    set flat := recent_flat patterns with hflat
    set d := pick_max_key flat k ks with hd
    rcases pick_max_key_spec flat ks k with ⟨pre, post, heq, hpre, hmax⟩
    have hdmem : d ∈ first_occs flat := by
      rw [hfo, heq]
      exact List.mem_append_right _ (List.mem_cons_self _ _)
    refine ⟨d, hps, mem_first_occs.mp hdmem, ?_, pre, post, ?_, hpre⟩
    · intro e
      by_cases he : e ∈ flat
      · exact hmax e (hfo ▸ mem_first_occs.mpr he)
      · rw [List.count_eq_zero.mpr he]
        exact Nat.zero_le _
    · exact heq

/-- Witness for C4 (amended) at the history `[[up, down, up]]`. -/
theorem predict_returns_first_occurring_max_witness :
    recent_flat [[Direction.up, Direction.down, Direction.up]] ≠ [] ∧
    ∃ d, predict_next_move [[Direction.up, Direction.down, Direction.up]] =
      some d := by
  refine ⟨by decide, ?_⟩
  obtain ⟨d, hd, -⟩ := predict_returns_first_occurring_max
    [[Direction.up, Direction.down, Direction.up]] (by decide)
  exact ⟨d, hd⟩

/-- C5: the first-match threshold classifier is monotone — between any two
profiles with at least three games played, raising both averages never
lowers the tier rank under Beginner < Intermediate < Advanced < Expert. -/
theorem analyze_skill_level_monotone (p q : PlayerData)
    (hp : 3 ≤ p.games_played) (hq : 3 ≤ q.games_played)
    (hs : p.avg_score ≤ q.avg_score)
    (ht : p.avg_game_time ≤ q.avg_game_time) :
    skill_rank (analyze_skill_level p) ≤ skill_rank (analyze_skill_level q) := by
  unfold analyze_skill_level
  have hp' : ¬ p.games_played < 3 := by omega
  have hq' : ¬ q.games_played < 3 := by omega
  simp only [hp', if_false, hq']
  split_ifs <;> simp only [skill_rank] <;> try omega
  all_goals exfalso
  all_goals simp only [not_and_or, not_lt] at *
  all_goals casesm* _ ∧ _, _ ∨ _
  all_goals linarith

/-- A three-game profile at the bottom of every threshold. -/
def pdLow : PlayerData :=
  { games_played := 3, avg_score := 0, avg_game_time := 0,
    movement_patterns := [], death_causes := ⟨0, 0⟩,
    preferred_directions := ⟨0, 0, 0, 0⟩, reaction_times := [],
    skill_level := .beginner }

/-- A profile dominating `pdLow` in both averages. -/
def pdHigh : PlayerData :=
  { games_played := 4, avg_score := 300, avg_game_time := 200,
    movement_patterns := [], death_causes := ⟨0, 0⟩,
    preferred_directions := ⟨0, 0, 0, 0⟩, reaction_times := [],
    skill_level := .beginner }

/-- Witness for C5 at the pair `pdLow`, `pdHigh`. -/
theorem analyze_skill_level_monotone_witness :
    3 ≤ pdLow.games_played ∧ pdLow.avg_score ≤ pdHigh.avg_score ∧
    skill_rank (analyze_skill_level pdLow) ≤
      skill_rank (analyze_skill_level pdHigh) := by
  refine ⟨by decide, by decide, ?_⟩
  exact analyze_skill_level_monotone pdLow pdHigh (by decide) (by decide)
    (by decide) (by decide)

/-- C6: for every profile and every score snapshot, the adapted speed lies
in the closed interval [6, 25]: the boosted branch caps at 25, the slowed
branch floors at 6, and all four base rates lie inside the interval. -/
theorem adapt_difficulty_speed_bounds (pd : PlayerData) (s t : ℚ) :
    6 ≤ (adapt_difficulty pd s t).current_speed ∧
    (adapt_difficulty pd s t).current_speed ≤ 25 := by
  unfold adapt_difficulty
  cases h : analyze_skill_level pd <;>
    simp only [base_speeds] <;> split_ifs <;> constructor <;> decide

/-- C7: whenever the food spawn returns a cell it is off the snake, and
whenever the power-up spawn returns a power-up its position is off the
snake and distinct from the food cell. -/
theorem spawn_cells_unoccupied :
    (∀ (draws snake : List Cell) (c : Cell),
       spawn_food draws snake = some c → c ∉ snake) ∧
    (∀ (draws snake : List Cell) (food : Cell) (kind : PowerUpType)
       (pu : PowerUp), spawn_power_up draws snake food kind = some pu →
       pu.pos ∉ snake ∧ pu.pos ≠ food) :=
  ⟨spawn_food_not_on_snake, spawn_power_up_clear⟩

/-- Witness for C7 on concrete draws. -/
theorem spawn_cells_unoccupied_witness :
    spawn_food [((1 : Int), (1 : Int))] [((0 : Int), (0 : Int))] =
      some ((1 : Int), (1 : Int)) ∧
    ((1 : Int), (1 : Int)) ∉ [((0 : Int), (0 : Int))] ∧
    ({ pos := ((2 : Int), (2 : Int)), kind := PowerUpType.speed_boost,
       timer := 300 } : PowerUp).pos ∉ [((0 : Int), (0 : Int))] ∧
    ({ pos := ((2 : Int), (2 : Int)), kind := PowerUpType.speed_boost,
       timer := 300 } : PowerUp).pos ≠ ((1 : Int), (1 : Int)) := by
  refine ⟨rfl, spawn_cells_unoccupied.1 [((1 : Int), (1 : Int))]
    [((0 : Int), (0 : Int))] ((1 : Int), (1 : Int)) rfl, ?_, ?_⟩
  · exact (spawn_cells_unoccupied.2 [((2 : Int), (2 : Int))]
      [((0 : Int), (0 : Int))] ((1 : Int), (1 : Int))
      PowerUpType.speed_boost _ rfl).1
  · exact (spawn_cells_unoccupied.2 [((2 : Int), (2 : Int))]
      [((0 : Int), (0 : Int))] ((1 : Int), (1 : Int))
      PowerUpType.speed_boost _ rfl).2

/-- Counterexample to C8 as stated: termination of a spawn loop is not
guaranteed by the existence of an empty cell — with the snake on (0, 0)
the in-grid cell (1, 0) is free, yet a draw sequence that only produces
occupied cells leaves the rejection-sampling loop of `spawn_food` without
a result no matter how long it runs. -/
theorem spawn_food_stuck_despite_empty_cell :
    spawn_food [((0 : Int), (0 : Int))] [((0 : Int), (0 : Int))] = none ∧
    ((1 : Int), (0 : Int)) ∉ [((0 : Int), (0 : Int))] ∧
    wallHit ((1 : Int), (0 : Int)) = false := by decide

/-- C8 (amended): all tick work terminates except the two
rejection-sampling spawn loops, whose termination is characterised exactly
by the injected draw sequences — the food loop returns iff some draw is
off the snake, the power-up loop returns iff some draw is off the snake
and off the food, and a tick on a non-empty snake completes whenever both
loops can return. -/
theorem tick_termination_via_draws :
    (∀ (draws snake : List Cell),
       spawn_food draws snake = none ↔ ∀ d ∈ draws, d ∈ snake) ∧
    (∀ (draws snake : List Cell) (food : Cell) (kind : PowerUpType),
       spawn_power_up draws snake food kind = none ↔
         ∀ d ∈ draws, d ∈ snake ∨ d = food) ∧
    (∀ (st : GameState) (gt : ℚ) (rnd : TickRandom) (head : Cell)
       (tl : List Cell) (f : Cell), st.snake = head :: tl →
       spawn_food rnd.foodDraws
         (moveCell head st.direction :: st.snake) = some f →
       spawn_power_up rnd.puDraws
         (moveCell head st.direction :: st.snake) f rnd.puKind ≠ none →
       update_game st gt rnd ≠ none) :=
  ⟨spawn_food_none_iff, spawn_power_up_none_iff, update_game_completes⟩

/-- Running session one step from the food, for the C8 witness. -/
def stC8 : GameState :=
  { ai := ⟨{ games_played := 0, avg_score := 0, avg_game_time := 0,
             movement_patterns := [], death_causes := ⟨0, 0⟩,
             preferred_directions := ⟨0, 0, 0, 0⟩, reaction_times := [],
             skill_level := .beginner }, 10, 10, 0.3⟩,
    snake := [((3 : Int), (3 : Int))],
    direction := .right, last_direction := .right,
    food := ((4 : Int), (3 : Int)), power_ups := [], score := 0,
    game_over := false, paused := false, movement_history := [],
    ai_prediction := none, show_ai_hints := true }

/-- Draws that immediately satisfy both spawn loops from `stC8`. -/
def rndC8 : TickRandom :=
  ⟨[((9 : Int), (9 : Int))], [((8 : Int), (8 : Int))], 0, .speed_boost⟩

/-- Witness for C8 (amended): from `stC8` with the draws of `rndC8` the
tick completes. -/
theorem tick_termination_via_draws_witness :
    spawn_food rndC8.foodDraws
      (moveCell ((3 : Int), (3 : Int)) stC8.direction :: stC8.snake) =
      some ((9 : Int), (9 : Int)) ∧
    update_game stC8 0 rndC8 ≠ none := by
  refine ⟨by decide, ?_⟩
  exact tick_termination_via_draws.2.2 stC8 0 rndC8 ((3 : Int), (3 : Int)) []
    ((9 : Int), (9 : Int)) rfl (by decide) (by decide)

/-- C9: on any tick that detects a death cause, the session snake, food,
score, power-up list and move log are exactly what they were before the
tick — the head is not pushed, no tail is removed, no power-up is picked
up or has its timer decremented — and the session is in game over. -/
theorem update_game_death_preserves_session (st : GameState) (gt : ℚ)
    (rnd : TickRandom) (head : Cell) (tl : List Cell)
    (hsn : st.snake = head :: tl)
    (hps : st.paused = false) (hgo : st.game_over = false)
    (hdc : check_collisions (moveCell head st.direction) st.snake ≠ none) :
    ∃ out, update_game st gt rnd = some out ∧
      out.death = check_collisions (moveCell head st.direction) st.snake ∧
      out.state.snake = st.snake ∧ out.state.food = st.food ∧
      out.state.score = st.score ∧ out.state.power_ups = st.power_ups ∧
      out.state.movement_history = st.movement_history ∧
      out.state.game_over = true := by
  rcases hc : check_collisions (moveCell head st.direction) st.snake with _ | c
  · exact absurd hc hdc
  · obtain ⟨ai, snake, dir, ld, food, pus, score, go, paused, mh, aip, hints⟩ := st
    dsimp only at hsn hps hgo hc ⊢
    subst hsn hps hgo
    unfold update_game
    simp only [hc, Bool.or_self, Bool.false_eq_true, if_false]
    exact ⟨_, rfl, rfl, rfl, rfl, rfl, rfl, rfl, rfl⟩

/-- Running session about to hit the right wall: head at (39, 5) moving
right on the 40-column grid. -/
def stC9 : GameState :=
  { ai := ⟨{ games_played := 0, avg_score := 0, avg_game_time := 0,
             movement_patterns := [], death_causes := ⟨0, 0⟩,
             preferred_directions := ⟨0, 0, 0, 0⟩, reaction_times := [],
             skill_level := .beginner }, 10, 10, 0.3⟩,
    snake := [((39 : Int), (5 : Int))],
    direction := .right, last_direction := .right,
    food := ((7 : Int), (7 : Int)),
    power_ups := [⟨((2 : Int), (2 : Int)), .invincible, 17⟩], score := 40,
    game_over := false, paused := false, movement_history := [.right],
    ai_prediction := none, show_ai_hints := true }

/-- Fixed injected randomness for the C9 witness. -/
def rndC9 : TickRandom :=
  ⟨[((1 : Int), (1 : Int))], [((2 : Int), (2 : Int))], 0.9, .invincible⟩

/-- Witness for C9: the wall-death tick from `stC9` leaves snake and score
untouched. -/
theorem update_game_death_preserves_session_witness :
    check_collisions (moveCell ((39 : Int), (5 : Int)) stC9.direction)
      stC9.snake ≠ none ∧
    ∃ out, update_game stC9 0 rndC9 = some out ∧
      out.state.snake = stC9.snake ∧ out.state.score = stC9.score ∧
      out.state.power_ups = stC9.power_ups := by
  refine ⟨by decide, ?_⟩
  obtain ⟨out, h1, h2, h3, h4, h5, h6, h7, h8⟩ :=
    update_game_death_preserves_session stC9 0 rndC9
      ((39 : Int), (5 : Int)) [] rfl rfl rfl (by decide)
  exact ⟨out, h1, h3, h5, h6⟩

/-- C10: a power-up can only enter the session on a tick whose new head
equals the food cell, at most one enters per tick, and on every tick where
no food is eaten the set of power-up positions can only shrink. -/
theorem powerup_only_grows_on_food_tick (st : GameState) (gt : ℚ)
    (rnd : TickRandom) (out : TickOut)
    (h : update_game st gt rnd = some out) :
    out.state.power_ups.length ≤ st.power_ups.length + 1 ∧
    (∀ pu ∈ out.state.power_ups,
       pu.pos ∈ st.power_ups.map PowerUp.pos ∨
       ∃ head tl, st.snake = head :: tl ∧
         moveCell head st.direction = st.food) ∧
    ((∀ head tl, st.snake = head :: tl →
        moveCell head st.direction ≠ st.food) →
      ∀ pu ∈ out.state.power_ups, pu.pos ∈ st.power_ups.map PowerUp.pos) := by
  obtain ⟨ai, snake, dir, ld, food, pus, score, go, paused, mh, aip, hints⟩ := st
  dsimp only at h ⊢
  unfold update_game at h
  by_cases hpg : (paused || go) = true
  · rw [if_pos hpg] at h
    simp only [Option.some.injEq] at h
    subst h
    refine ⟨Nat.le_succ_of_le le_rfl, ?_, ?_⟩
    · intro pu hpu
      exact Or.inl (List.mem_map.mpr ⟨pu, hpu, rfl⟩)
    · intro _ pu hpu
      exact List.mem_map.mpr ⟨pu, hpu, rfl⟩
  · rw [if_neg hpg] at h
    cases snake with
    | nil => exact absurd h (by simp)
    | cons head tl =>
      dsimp only at h
      rcases hcc : check_collisions (moveCell head dir) (head :: tl) with _ | c
      · rw [hcc] at h
        dsimp only at h
        by_cases hf : moveCell head dir = food
        · rw [if_pos hf] at h
          rcases hsf : spawn_food rnd.foodDraws
              (moveCell head dir :: head :: tl) with _ | f
          · rw [hsf] at h
            dsimp only at h
            exact absurd h (by simp)
          · rw [hsf] at h
            dsimp only at h
            by_cases hss : should_spawn_power_up
                (adapt_difficulty ai.player_data (score : ℚ) gt).player_data
                (adapt_difficulty ai.player_data (score : ℚ) gt).power_up_frequency
                ((score + 10 : Int) : ℚ)
                (moveCell head dir :: head :: tl).length rnd.spawnDraw = true
            · rw [if_pos hss] at h
              rcases hsp : spawn_power_up rnd.puDraws
                  (moveCell head dir :: head :: tl) f rnd.puKind with _ | pu
              · rw [hsp] at h
                dsimp only at h
                exact absurd h (by simp)
              · rw [hsp] at h
                dsimp only at h
                simp only [Option.some.injEq] at h
                subst h
                refine ⟨?_, ?_, ?_⟩
                · calc _ ≤ (pus ++ [pu]).length := finish_tick_len _ _
                    _ = pus.length + 1 := by simp
                · intro q hq
                  exact Or.inr ⟨head, tl, rfl, hf⟩
                · intro hnf
                  exact absurd hf (hnf head tl rfl)
            · rw [if_neg hss] at h
              simp only [Option.some.injEq] at h
              subst h
              refine ⟨Nat.le_succ_of_le (finish_tick_len _ _), ?_, ?_⟩
              · intro q hq
                exact Or.inr ⟨head, tl, rfl, hf⟩
              · intro hnf
                exact absurd hf (hnf head tl rfl)
        · rw [if_neg hf] at h
          simp only [Option.some.injEq] at h
          subst h
          refine ⟨Nat.le_succ_of_le (finish_tick_len _ _), ?_, ?_⟩
          · intro q hq
            exact Or.inl (finish_tick_pos_subset _ _ q hq)
          · intro _ q hq
            exact finish_tick_pos_subset _ _ q hq
      · rw [hcc] at h
        dsimp only at h
        simp only [Option.some.injEq] at h
        subst h
        refine ⟨Nat.le_succ_of_le le_rfl, ?_, ?_⟩
        · intro pu hpu
          exact Or.inl (List.mem_map.mpr ⟨pu, hpu, rfl⟩)
        · intro _ pu hpu
          exact List.mem_map.mpr ⟨pu, hpu, rfl⟩

/-- A paused session with one active power-up, for the C10 witness. -/
def stC10 : GameState :=
  { ai := ⟨{ games_played := 0, avg_score := 0, avg_game_time := 0,
             movement_patterns := [], death_causes := ⟨0, 0⟩,
             preferred_directions := ⟨0, 0, 0, 0⟩, reaction_times := [],
             skill_level := .beginner }, 10, 10, 0.3⟩,
    snake := [((3 : Int), (3 : Int))],
    direction := .right, last_direction := .right,
    food := ((4 : Int), (3 : Int)),
    power_ups := [⟨((6 : Int), (6 : Int)), .score_multiplier, 100⟩],
    score := 0, game_over := false, paused := true, movement_history := [],
    ai_prediction := none, show_ai_hints := true }

/-- Fixed injected randomness for the C10 witness. -/
def rndC10 : TickRandom :=
  ⟨[((9 : Int), (9 : Int))], [((8 : Int), (8 : Int))], 0, .speed_boost⟩

/-- Witness for C10 at the paused session `stC10`, whose tick returns the
state unchanged. -/
theorem powerup_only_grows_on_food_tick_witness :
    update_game stC10 0 rndC10 = some ⟨stC10, none⟩ ∧
    (TickOut.mk stC10 none).state.power_ups.length ≤
      stC10.power_ups.length + 1 := by
  refine ⟨rfl, ?_⟩
  exact (powerup_only_grows_on_food_tick stC10 0 rndC10 ⟨stC10, none⟩ rfl).1

end RetroSnake
